import Mathlib

/-!
Verification of the Camera / Compositor / Viewer media-relay subsystem of the
Overtime-Partido repository.

The definitions below are a shallow embedding of the signaling-state handlers in
  src/shared/hooks/useWebRTCCamera.ts        (Source role)
  src/shared/hooks/useWebRTCCompositor.ts    (Compositor role, per-source sessions)
  src/features/broadcast/BroadcastPage.tsx   (Compositor role, program sessions)
  src/features/overlay OverlayPage           (Viewer role, program client)

SDP payloads and ICE candidates are opaque to the code (it only stores and
forwards them), so they are modelled as natural numbers.  Peer connections are
modelled by the fields the handlers actually read and write: the remote
description (present or absent) and the list of candidates added so far.
Socket emissions and WebRTC calls whose result the handlers do not inspect are
recorded as elements of explicit effect lists.
-/

namespace Overtime

/-- CameraSlot from camera.types.ts: the four symbolic camera slots. -/
inductive CameraSlot where
  | cam1 | cam2 | cam3 | cam4
deriving DecidableEq, Repr

/-- CAMERA_SLOTS / ALL_SLOTS: the fixed list of all slots. -/
def CAMERA_SLOTS : List CameraSlot := [.cam1, .cam2, .cam3, .cam4]

/-- CameraStatus from camera.types.ts. -/
inductive CameraStatus where
  | offline | connecting | live | error
deriving DecidableEq, Repr

/-- RTCIceConnectionState values the handlers branch on. -/
inductive IceConnState where
  | fresh | checking | connected | completed | disconnected | failed | closed
deriving DecidableEq, Repr

/-- Opaque session description payload (the code never inspects it). -/
abbrev Sdp := Nat

/-- Opaque ICE candidate payload (the code never inspects it). -/
abbrev Candidate := Nat

/-- MediaStreamTrack kind. -/
inductive TrackKind where
  | audio | video
deriving DecidableEq, Repr

/-- A media track: an identifier plus its kind. -/
structure Track where
  id : Nat
  kind : TrackKind
deriving DecidableEq, Repr

/-- A MediaStream as the handlers use it: its list of tracks. -/
structure MediaStreamModel where
  tracks : List Track
deriving DecidableEq, Repr

/-- getVideoTracks of a stream. -/
def MediaStreamModel.getVideoTracks (ms : MediaStreamModel) : List Track :=
  ms.tracks.filter (fun t => t.kind = TrackKind.video)

/-- getAudioTracks of a stream. -/
def MediaStreamModel.getAudioTracks (ms : MediaStreamModel) : List Track :=
  ms.tracks.filter (fun t => t.kind = TrackKind.audio)

namespace Camera

/-- The RTCPeerConnection state the camera hook reads and writes:
pc.remoteDescription, and the candidates passed to pc.addIceCandidate so far
(in call order). -/
structure CameraPC where
  remoteDescription : Option Sdp
  addedCandidates : List Candidate
deriving DecidableEq, Repr

/-- The per-session refs of useWebRTCCamera: peerConnectionRef and
pendingIceCandidatesRef. -/
structure CameraConn where
  peerConnection : Option CameraPC
  pendingIceCandidates : List Candidate
deriving DecidableEq, Repr

/-- Payload of a camera:answer message. -/
structure CameraAnswerMsg where
  matchId : String
  slot : CameraSlot
  sdp : Sdp
deriving DecidableEq, Repr

/-- Payload of a camera:ice message. -/
structure CameraIceMsg where
  matchId : String
  slot : CameraSlot
  candidate : Candidate
deriving DecidableEq, Repr

/-- handleAnswer from useWebRTCCamera (lines 362-391): drop the message unless
it targets this matchId and slot; do nothing without a peer connection; ignore
the answer when a remote description is already set; otherwise set the remote
description, then add every pending candidate in queue order and clear the
queue.  The catch branch for a platform setRemoteDescription failure is not
modelled (the normal path is the one the claims are about). -/
def handleAnswer (matchId : String) (slot : CameraSlot) (data : CameraAnswerMsg)
    (s : CameraConn) : CameraConn :=
  if data.matchId ≠ matchId ∨ data.slot ≠ slot then s
  else
    match s.peerConnection with
    | none => s
    | some pc =>
      if pc.remoteDescription.isSome then s
      else
        let pc2 : CameraPC :=
          { remoteDescription := some data.sdp
            addedCandidates := pc.addedCandidates ++ s.pendingIceCandidates }
        { peerConnection := some pc2, pendingIceCandidates := [] }

/-- handleIceCandidate from useWebRTCCamera (lines 394-409): drop the message
unless it targets this matchId and slot; queue the candidate while there is no
peer connection or no remote description; otherwise add it to the connection. -/
def handleIceCandidate (matchId : String) (slot : CameraSlot) (data : CameraIceMsg)
    (s : CameraConn) : CameraConn :=
  if data.matchId ≠ matchId ∨ data.slot ≠ slot then s
  else
    match s.peerConnection with
    | none =>
        { s with pendingIceCandidates := s.pendingIceCandidates ++ [data.candidate] }
    | some pc =>
      if pc.remoteDescription.isNone then
        { s with pendingIceCandidates := s.pendingIceCandidates ++ [data.candidate] }
      else
        let pc2 : CameraPC :=
          { pc with addedCandidates := pc.addedCandidates ++ [data.candidate] }
        { s with peerConnection := some pc2 }

/-- Effects issued by the camera hook that are not captured in CameraConn. -/
inductive CamEffect where
  | stopTrack (t : Track)
  | acquireVideo
  | acquireStream
  | replaceOutgoingTrack (t : Track)
  | sendOffer
deriving DecidableEq, Repr

/-- initiateConnection from useWebRTCCamera (lines 310-338): return unchanged
without a local stream or socket; otherwise clear the pending-candidate queue,
create a fresh peer connection (createPeerConnection closes any previous one),
attach the local tracks, and create and send an offer.  Track attachment and
the offer are effects; the refs change as shown. -/
def initiateConnection (hasLocalStream hasSocket : Bool) (s : CameraConn) :
    CameraConn × List CamEffect :=
  if hasLocalStream = false ∨ hasSocket = false then (s, [])
  else
    ({ peerConnection := some { remoteDescription := none, addedCandidates := [] }
       pendingIceCandidates := [] },
     [CamEffect.sendOffer])

/-- The oniceconnectionstatechange handler installed by createPeerConnection in
useWebRTCCamera (lines 282-303), acting on the status and isConnected state.
States without a case (checking, fresh) leave the state unchanged. -/
def onIceConnectionStateChange (st : IceConnState) (u : CameraStatus × Bool) :
    CameraStatus × Bool :=
  match st with
  | .connected => (CameraStatus.live, true)
  | .completed => (CameraStatus.live, true)
  | .disconnected => (CameraStatus.error, false)
  | .failed => (CameraStatus.error, false)
  | .closed => (CameraStatus.offline, false)
  | _ => u

end Camera

/-- Whether a sender currently holds a video track: the find predicate
s.track and s.track.kind equal to video used on getSenders(). -/
def senderHoldsVideo (t? : Option Track) : Bool :=
  match t? with
  | some t => t.kind == TrackKind.video
  | none => false

namespace Camera

/-- CaptureSource from useWebRTCCamera. -/
inductive CaptureSource where
  | camera | screen
deriving DecidableEq, Repr

/-- switchCamera from useWebRTCCamera (lines 206-246), as the trace of media
effects it performs: it returns at once unless the capture source is camera,
and does nothing without a local stream; otherwise it stops the video tracks of
the local stream, acquires one new video track for the other facing mode,
swaps the track inside the local stream, and, when a peer connection exists and
one of its senders holds a video track, replaces the outgoing track in place.
No offer is created and no answer exchanged. -/
def switchCamera (captureSource : CaptureSource) (localStream : Option MediaStreamModel)
    (pcSenders : Option (List (Option Track))) (newVideoTrack : Track) :
    List CamEffect :=
  if captureSource ≠ CaptureSource.camera then []
  else
    match localStream with
    | none => []
    | some stream =>
      (stream.getVideoTracks.map CamEffect.stopTrack)
        ++ [CamEffect.acquireVideo]
        ++ (match pcSenders with
            | some senders =>
              if senders.any senderHoldsVideo then
                [CamEffect.replaceOutgoingTrack newVideoTrack]
              else []
            | none => [])

/-- switchSource from useWebRTCCamera (lines 249-260), as the trace of media
effects it performs: a no-op when the requested source equals the current one;
otherwise it stops every track of the local stream, audio included, drops the
stream and starts a fresh capture of the new kind via startCapture. -/
def switchSource (captureSource newSource : CaptureSource)
    (localStream : Option MediaStreamModel) : List CamEffect :=
  if newSource = captureSource then []
  else
    (match localStream with
     | some stream => stream.tracks.map CamEffect.stopTrack
     | none => []) ++ [CamEffect.acquireStream]

end Camera

namespace Compositor

/-- The RTCPeerConnection state of one per-slot source session held by
useWebRTCCompositor: the remote description and the candidates added so far. -/
structure CompositorPC where
  remoteDescription : Option Sdp
  addedCandidates : List Candidate
deriving DecidableEq, Repr

/-- The refs and stream map of useWebRTCCompositor: peerConnectionsRef,
pendingIceCandidatesRef (a missing map entry reads as the empty list) and the
streams state, each keyed by slot. -/
structure CompositorState where
  peerConnections : CameraSlot → Option CompositorPC
  pendingIceCandidates : CameraSlot → List Candidate
  streams : CameraSlot → Option MediaStreamModel

/-- Effects issued by the compositor hook that are not captured in
CompositorState: closing a peer connection, emitting camera:answer for a slot,
and the leave and join emissions of the claim logic. -/
inductive CompEffect where
  | closePC (slot : CameraSlot) (pc : CompositorPC)
  | sendAnswer (slot : CameraSlot)
  | emitCompositorLeave
  | emitCompositorJoin
deriving DecidableEq, Repr

/-- createPeerConnection from useWebRTCCompositor (lines 66-131): close the
existing connection for the slot if there is one, then store a fresh peer
connection under that slot.  The onicecandidate, ontrack and
oniceconnectionstatechange callbacks it installs are modelled separately. -/
def createPeerConnection (slot : CameraSlot) (s : CompositorState) :
    CompositorState × List CompEffect :=
  let closeEffects := ((s.peerConnections slot).map (CompEffect.closePC slot)).toList
  let freshPC : CompositorPC := { remoteDescription := none, addedCandidates := [] }
  ({ s with peerConnections := fun sl =>
        if sl = slot then some freshPC else s.peerConnections sl },
   closeEffects)

/-- Payload of a camera:offer message. -/
structure CameraOfferMsg where
  matchId : String
  slot : CameraSlot
  sdp : Sdp
deriving DecidableEq, Repr

/-- handleOffer from useWebRTCCompositor (lines 134-169): drop the message
unless it targets this matchId; create or replace the peer connection for the
slot; set the remote description; add the pending candidates for the slot in
queue order and clear that queue; create and send the answer.  A per-candidate
addIceCandidate failure is only logged, so the success path is modelled. -/
def handleOffer (matchId : String) (data : CameraOfferMsg) (s : CompositorState) :
    CompositorState × List CompEffect :=
  if data.matchId ≠ matchId then (s, [])
  else
    let created := createPeerConnection data.slot s
    let s1 := created.1
    let pending := s1.pendingIceCandidates data.slot
    let pc2 : CompositorPC :=
      { remoteDescription := some data.sdp, addedCandidates := pending }
    let s2 : CompositorState :=
      { s1 with
        peerConnections := fun sl =>
          if sl = data.slot then some pc2 else s1.peerConnections sl
        pendingIceCandidates := fun sl =>
          if sl = data.slot then [] else s1.pendingIceCandidates sl }
    (s2, created.2 ++ [CompEffect.sendAnswer data.slot])

/-- handleIceCandidate from useWebRTCCompositor (lines 172-191): drop the
message unless it targets this matchId; queue the candidate for the slot while
that slot has no peer connection or no remote description; otherwise add it to
the connection of the slot. -/
def handleIceCandidate (matchId : String) (data : Camera.CameraIceMsg)
    (s : CompositorState) : CompositorState :=
  if data.matchId ≠ matchId then s
  else
    match s.peerConnections data.slot with
    | none =>
        { s with pendingIceCandidates := fun sl =>
            if sl = data.slot then s.pendingIceCandidates data.slot ++ [data.candidate]
            else s.pendingIceCandidates sl }
    | some pc =>
      if pc.remoteDescription.isNone then
        { s with pendingIceCandidates := fun sl =>
            if sl = data.slot then s.pendingIceCandidates data.slot ++ [data.candidate]
            else s.pendingIceCandidates sl }
      else
        let pc2 : CompositorPC :=
          { pc with addedCandidates := pc.addedCandidates ++ [data.candidate] }
        { s with peerConnections := fun sl =>
            if sl = data.slot then some pc2 else s.peerConnections sl }

/-- The oniceconnectionstatechange handler installed by createPeerConnection in
useWebRTCCompositor (lines 116-127): on failed or disconnected, delete the
stream entry of the slot; every other state leaves the state untouched. -/
def onIceConnectionStateChange (slot : CameraSlot) (st : IceConnState)
    (s : CompositorState) : CompositorState :=
  if st = IceConnState.failed ∨ st = IceConnState.disconnected then
    { s with streams := fun sl => if sl = slot then none else s.streams sl }
  else s

/-- The isConnected and error state of useWebRTCCompositor. -/
structure CompositorUIState where
  isConnected : Bool
  error : Option String
deriving DecidableEq, Repr

/-- handleReplaced from useWebRTCCompositor (lines 275-278): record the error
and mark the compositor disconnected.  It touches nothing else: no peer
connection is closed and no stream entry is removed by this handler. -/
def handleReplaced (_u : CompositorUIState) : CompositorUIState :=
  { isConnected := false, error := some "Another compositor took over" }

/-- The guard of the retry interval installed by the join effect of
useWebRTCCompositor (lines 321-329): joinCompositor is called on a tick only
while the hook is neither connected nor holds an error. -/
def retryTickJoins (u : CompositorUIState) : Bool :=
  !u.isConnected && u.error.isNone

end Compositor

namespace Broadcast

/-- One program peer connection of BroadcastPage, keyed by viewer socket id in
programPCsRef: its remote description and the tracks its senders hold. -/
structure ProgramPC where
  remoteDescription : Option Sdp
  senderTracks : List (Option Track)
deriving DecidableEq, Repr

/-- Effects issued by the program-session handlers of BroadcastPage, including
the switch notifications its click handlers send. -/
inductive ProgEffect where
  | setProgramSrc (stream : Option MediaStreamModel)
  | replaceVideoTrack (viewerId : String) (t : Track)
  | setRemoteDescriptionCall (viewerId : String) (sdp : Sdp)
  | sendProgramOffer (viewerId : String)
  | closeProgramPC (viewerId : String)
  | emitCameraSwitch (slot : Option CameraSlot)
  | emitCameraSwitched (slot : Option CameraSlot)
deriving DecidableEq, Repr

/-- Payload of a program:answer message. -/
structure ProgramAnswerMsg where
  viewerSocketId : String
  sdp : Sdp
deriving DecidableEq, Repr

/-- Platform semantics of setRemoteDescription with an answer: it succeeds when
no remote description is set; re-setting one in stable state rejects and leaves
the connection unchanged, and the handler only logs the rejection. -/
def setRemoteDescriptionResult (pc : ProgramPC) (sdp : Sdp) : ProgramPC :=
  match pc.remoteDescription with
  | none => { pc with remoteDescription := some sdp }
  | some _ => pc

/-- handleProgramAnswer from BroadcastPage (lines 668-679): look up the peer
connection of the answering viewer; if none exists, log and return; otherwise
call setRemoteDescription with the received sdp.  There is no check for an
already-set remote description, so the call is issued even for a duplicate
answer, and its rejection is only logged. -/
def handleProgramAnswer (pcs : List (String × ProgramPC)) (data : ProgramAnswerMsg) :
    List (String × ProgramPC) × List ProgEffect :=
  match pcs.lookup data.viewerSocketId with
  | none => (pcs, [])
  | some pc =>
      (pcs.map (fun e =>
         if e.1 = data.viewerSocketId then (e.1, setRemoteDescriptionResult pc data.sdp)
         else e),
       [ProgEffect.setRemoteDescriptionCall data.viewerSocketId data.sdp])

/-- The BroadcastPage effect on activeSlot or streams changes (lines 764-800),
as the trace of effects it performs.  With a program video element: for an
active slot whose stream exists, set the program surface to that stream and,
when the stream has a video track, replace the outgoing video track on every
program peer connection that has a sender holding a video track; with no active
slot, clear the program surface.  It closes no program peer connection, and
creates no offer and no answer. -/
def onActiveSlotChange (hasProgramVideo : Bool) (activeSlot : Option CameraSlot)
    (streams : CameraSlot → Option MediaStreamModel)
    (programPCs : List (String × ProgramPC)) : List ProgEffect :=
  if hasProgramVideo then
    match activeSlot with
    | some slot =>
      match streams slot with
      | some stream =>
        ProgEffect.setProgramSrc (some stream) ::
          (match stream.getVideoTracks.head? with
           | some videoTrack =>
               programPCs.filterMap (fun e =>
                 if e.2.senderTracks.any senderHoldsVideo then
                   some (ProgEffect.replaceVideoTrack e.1 videoTrack)
                 else none)
           | none => [])
      | none => []
    | none => [ProgEffect.setProgramSrc none]
  else []

/-- The remove-from-air button handler of BroadcastPage (lines 941-944): it
calls switchCamera null, which emits camera:switch (useWebRTCCompositor line
243), and then itself emits camera:switched with activeSlot none to the match.
Program viewers subscribe to camera:switched, so this notification reaches
every open viewer as part of the remove-from-air operation. -/
def removeFromAirClick : List ProgEffect :=
  [ProgEffect.emitCameraSwitch none, ProgEffect.emitCameraSwitched none]

end Broadcast

namespace Compositor

/-- One whole compositor instance: the per-source session state of
useWebRTCCompositor, the program peer connections of BroadcastPage and the
isConnected and error state. -/
structure CompositorInstance where
  conn : CompositorState
  programPCs : List (String × Broadcast.ProgramPC)
  ui : CompositorUIState

/-- Cleanup plus body of the join effect of useWebRTCCompositor
(lines 307-340).  Its dependency list is [socket, matchId, isConnected, error],
so a change of isConnected or error re-runs it: the cleanup closes every
source peer connection, clears the connection map and empties the streams
state; the body then calls joinCompositor, which emits compositor_leave at once
and compositor_join after a one second delay.  The program peer connections of
BroadcastPage live in an effect keyed only on [socket, matchId] and are
untouched, and the pending-candidate map is not cleared. -/
def joinEffectRerun (s : CompositorInstance) : CompositorInstance × List CompEffect :=
  let closeEffects := CAMERA_SLOTS.filterMap
    (fun sl => (s.conn.peerConnections sl).map (CompEffect.closePC sl))
  let conn2 : CompositorState :=
    { peerConnections := fun _ => none
      pendingIceCandidates := s.conn.pendingIceCandidates
      streams := fun _ => none }
  ({ s with conn := conn2 },
   closeEffects ++ [CompEffect.emitCompositorLeave, CompEffect.emitCompositorJoin])

/-- Net transition of a compositor instance on a camera:compositor_replaced
notification: handleReplaced records the error and clears isConnected, and
since both are dependencies of the join effect, that effect re-runs. -/
def onSuperseded (s : CompositorInstance) : CompositorInstance × List CompEffect :=
  let s1 : CompositorInstance := { s with ui := handleReplaced s.ui }
  joinEffectRerun s1

end Compositor

namespace Viewer

/-- The program peer connection of the viewer, by its connection state. -/
structure ViewerPC where
  connectionState : IceConnState
deriving DecidableEq, Repr

/-- The program-viewer state of OverlayPage: the forceReconnect counter and
programPcRef. -/
structure ViewerState where
  forceReconnect : Nat
  programPc : Option ViewerPC
deriving DecidableEq, Repr

/-- Effects issued by the program-viewer logic of OverlayPage. -/
inductive ViewerEffect where
  | closeProgramPc (pc : ViewerPC)
  | emitProgramViewerJoin
deriving DecidableEq, Repr

/-- The camera:switched handler of OverlayPage (program-viewer variant): bump
the forceReconnect counter.  The health of the current program session is not
consulted. -/
def handleCameraSwitched (s : ViewerState) : ViewerState :=
  { s with forceReconnect := s.forceReconnect + 1 }

/-- Cleanup plus body of the program-viewer effect of OverlayPage.  Its
dependency list is [showVideo, isSocketConnected, matchId, forceReconnect], so
bumping forceReconnect re-runs it: the cleanup closes the current program peer
connection unconditionally, whatever its connection state, and detaches the
video element; the body emits program:viewer_join again.  Modelled for the
mounted case: showVideo true, socket connected and matchId present. -/
def programEffectRerun (s : ViewerState) : ViewerState × List ViewerEffect :=
  ({ s with programPc := none },
   ((s.programPc.map ViewerEffect.closeProgramPc).toList)
     ++ [ViewerEffect.emitProgramViewerJoin])

/-- Net transition of the viewer on a camera:switched notification. -/
def onCameraSwitched (s : ViewerState) : ViewerState × List ViewerEffect :=
  programEffectRerun (handleCameraSwitched s)

end Viewer

/-! Concrete example inputs used by counterexamples and witnesses. -/

/-- An example stream with one audio and one video track. -/
def exStream : MediaStreamModel :=
  { tracks := [{ id := 1, kind := TrackKind.audio }, { id := 2, kind := TrackKind.video }] }

/-- An example compositor state: a session and a stream for cam1, nothing
else. -/
def exCompositorState : Compositor.CompositorState :=
  { peerConnections := fun sl =>
      if sl = CameraSlot.cam1 then
        some { remoteDescription := some 9, addedCandidates := [4] }
      else none
    pendingIceCandidates := fun _ => []
    streams := fun sl => if sl = CameraSlot.cam1 then some exStream else none }

/-- An example camera connection whose remote description is already set and
whose queue is not empty. -/
def exCameraConn : Camera.CameraConn :=
  { peerConnection := some { remoteDescription := some 3, addedCandidates := [] }
    pendingIceCandidates := [11] }

/-- An example program session whose remote description is already set. -/
def exProgramPC : Broadcast.ProgramPC :=
  { remoteDescription := some 5, senderTracks := [] }

/-- An example program-session table holding the session of viewer1. -/
def exProgramPCs : List (String × Broadcast.ProgramPC) := [("viewer1", exProgramPC)]

/-- An example whole compositor instance: a source session for cam1, one
program session and a healthy connected state. -/
def exInstance : Compositor.CompositorInstance :=
  { conn := exCompositorState
    programPCs := exProgramPCs
    ui := { isConnected := true, error := none } }

/-- An example viewer whose program session is healthy (connected). -/
def exViewer : Viewer.ViewerState :=
  { forceReconnect := 0
    programPc := some { connectionState := IceConnState.connected } }

/-! Helper lemmas shared by several claims. -/

/-- Matching ice messages arriving at the camera while the remote description
is absent are appended to the pending queue in arrival order, and the peer
connection is untouched. -/
theorem camera_ice_foldl_buffers (matchId : String) (slot : CameraSlot)
    (cs : List Candidate) (pc : Camera.CameraPC) (h : pc.remoteDescription = none)
    (pend : List Candidate) :
    (cs.map fun c =>
        ({ matchId := matchId, slot := slot, candidate := c } : Camera.CameraIceMsg)).foldl
      (fun st m => Camera.handleIceCandidate matchId slot m st)
      { peerConnection := some pc, pendingIceCandidates := pend }
    = { peerConnection := some pc, pendingIceCandidates := pend ++ cs } := by
  induction cs generalizing pend with
  | nil => simp
  | cons c cs ih =>
    have hstep : Camera.handleIceCandidate matchId slot
        { matchId := matchId, slot := slot, candidate := c }
        { peerConnection := some pc, pendingIceCandidates := pend }
      = { peerConnection := some pc, pendingIceCandidates := pend ++ [c] } := by
      simp [Camera.handleIceCandidate, h]
    simp only [List.map_cons, List.foldl_cons, hstep, ih]
    simp

/-- Two compositor states with the same fields, the pending queues compared
pointwise, are equal. -/
theorem compositorState_ext (a b : Compositor.CompositorState)
    (h1 : a.peerConnections = b.peerConnections)
    (h2 : ∀ sl, a.pendingIceCandidates sl = b.pendingIceCandidates sl)
    (h3 : a.streams = b.streams) : a = b := by
  cases a
  cases b
  simp only [Compositor.CompositorState.mk.injEq]
  exact ⟨h1, funext h2, h3⟩

/-- Matching ice messages for a slot with no compositor session are appended to
the pending queue of that slot in arrival order; the session table, the queues
of the other slots and the streams map are untouched. -/
theorem compositor_ice_foldl_buffers (matchId : String) (slot : CameraSlot)
    (cs : List Candidate) (s : Compositor.CompositorState)
    (h : s.peerConnections slot = none) :
    (cs.map fun c =>
        ({ matchId := matchId, slot := slot, candidate := c } : Camera.CameraIceMsg)).foldl
      (fun st m => Compositor.handleIceCandidate matchId m st) s
    = { peerConnections := s.peerConnections
        pendingIceCandidates := fun sl =>
          if sl = slot then s.pendingIceCandidates slot ++ cs
          else s.pendingIceCandidates sl
        streams := s.streams } := by
  induction cs generalizing s with
  | nil =>
    simp only [List.map_nil, List.foldl_nil]
    refine compositorState_ext _ _ rfl (fun sl => ?_) rfl
    by_cases hsl : sl = slot <;> simp [hsl]
  | cons c cs ih =>
    have hstep : Compositor.handleIceCandidate matchId
        { matchId := matchId, slot := slot, candidate := c } s
      = { peerConnections := s.peerConnections
          pendingIceCandidates := fun sl =>
            if sl = slot then s.pendingIceCandidates slot ++ [c]
            else s.pendingIceCandidates sl
          streams := s.streams } := by
      simp [Compositor.handleIceCandidate, h]
    simp only [List.map_cons, List.foldl_cons, hstep]
    rw [ih { peerConnections := s.peerConnections
             pendingIceCandidates := fun sl =>
               if sl = slot then s.pendingIceCandidates slot ++ [c]
               else s.pendingIceCandidates sl
             streams := s.streams } h]
    refine compositorState_ext _ _ rfl (fun sl => ?_) rfl
    by_cases hsl : sl = slot <;> simp [hsl]

/-- Claim C2: for every sequence of candidates received on a PeerSession before
its remote description exists, each candidate is buffered in that sessions
pending-candidate queue in arrival order, and once the remote description is
applied (handleAnswer on the source side, handleOffer on the compositor side)
every buffered candidate is added to the connection in its original arrival
order and exactly once, leaving the queue empty. -/
theorem candidate_buffering_flush_in_order (matchId : String) (slot : CameraSlot)
    (cs : List Candidate) (sdp : Sdp) (s0 : Compositor.CompositorState)
    (hpc : s0.peerConnections slot = none)
    (hpend : s0.pendingIceCandidates slot = []) :
    let msgs := cs.map fun c =>
      ({ matchId := matchId, slot := slot, candidate := c } : Camera.CameraIceMsg)
    let cam1 := msgs.foldl (fun st m => Camera.handleIceCandidate matchId slot m st)
      { peerConnection := some { remoteDescription := none, addedCandidates := [] }
        pendingIceCandidates := [] }
    let comp1 := msgs.foldl (fun st m => Compositor.handleIceCandidate matchId m st) s0
    let offered := Compositor.handleOffer matchId
      { matchId := matchId, slot := slot, sdp := sdp } comp1
    cam1.pendingIceCandidates = cs
    ∧ Camera.handleAnswer matchId slot { matchId := matchId, slot := slot, sdp := sdp } cam1
        = { peerConnection := some { remoteDescription := some sdp, addedCandidates := cs }
            pendingIceCandidates := [] }
    ∧ comp1.pendingIceCandidates slot = cs
    ∧ offered.1.peerConnections slot
        = some { remoteDescription := some sdp, addedCandidates := cs }
    ∧ offered.1.pendingIceCandidates slot = []
    ∧ offered.2 = [Compositor.CompEffect.sendAnswer slot] := by
  intro msgs cam1 comp1 offered
  have hcam : cam1
      = { peerConnection := some { remoteDescription := none, addedCandidates := [] }
          pendingIceCandidates := [] ++ cs } :=
    camera_ice_foldl_buffers matchId slot cs _ rfl []
  have hcomp : comp1
      = { peerConnections := s0.peerConnections
          pendingIceCandidates := fun sl =>
            if sl = slot then s0.pendingIceCandidates slot ++ cs
            else s0.pendingIceCandidates sl
          streams := s0.streams } :=
    compositor_ice_foldl_buffers matchId slot cs s0 hpc
  refine ⟨?_, ?_, ?_, ?_, ?_, ?_⟩
  · rw [hcam]
    simp
  · rw [hcam]
    simp [Camera.handleAnswer]
  · rw [hcomp]
    simp [hpend]
  · show (Compositor.handleOffer matchId
      { matchId := matchId, slot := slot, sdp := sdp } comp1).1.peerConnections slot = _
    rw [hcomp]
    simp [Compositor.handleOffer, Compositor.createPeerConnection, hpend]
  · show (Compositor.handleOffer matchId
      { matchId := matchId, slot := slot, sdp := sdp } comp1).1.pendingIceCandidates slot = _
    rw [hcomp]
    simp [Compositor.handleOffer, Compositor.createPeerConnection]
  · show (Compositor.handleOffer matchId
      { matchId := matchId, slot := slot, sdp := sdp } comp1).2 = _
    rw [hcomp]
    simp [Compositor.handleOffer, Compositor.createPeerConnection, hpc]

/-- Claim C2 witness: the theorem applied at a concrete match, slot, candidate
sequence and start state. -/
theorem candidate_buffering_flush_in_order_witness :
    (Compositor.CompositorState.mk (fun _ => none) (fun _ => []) (fun _ => none)).peerConnections
        CameraSlot.cam2 = none
    ∧ (Compositor.CompositorState.mk (fun _ => none) (fun _ => []) (fun _ => none)).pendingIceCandidates
        CameraSlot.cam2 = []
    ∧ (let msgs := [10, 20, 30].map fun c =>
        ({ matchId := "m1", slot := CameraSlot.cam2, candidate := c } : Camera.CameraIceMsg)
       let cam1 := msgs.foldl (fun st m => Camera.handleIceCandidate "m1" CameraSlot.cam2 m st)
        { peerConnection := some { remoteDescription := none, addedCandidates := [] }
          pendingIceCandidates := [] }
       let comp1 := msgs.foldl (fun st m => Compositor.handleIceCandidate "m1" m st)
        (Compositor.CompositorState.mk (fun _ => none) (fun _ => []) (fun _ => none))
       let offered := Compositor.handleOffer "m1"
        { matchId := "m1", slot := CameraSlot.cam2, sdp := 5 } comp1
       cam1.pendingIceCandidates = [10, 20, 30]
       ∧ Camera.handleAnswer "m1" CameraSlot.cam2
            { matchId := "m1", slot := CameraSlot.cam2, sdp := 5 } cam1
          = { peerConnection := some { remoteDescription := some 5, addedCandidates := [10, 20, 30] }
              pendingIceCandidates := [] }
       ∧ comp1.pendingIceCandidates CameraSlot.cam2 = [10, 20, 30]
       ∧ offered.1.peerConnections CameraSlot.cam2
          = some { remoteDescription := some 5, addedCandidates := [10, 20, 30] }
       ∧ offered.1.pendingIceCandidates CameraSlot.cam2 = []
       ∧ offered.2 = [Compositor.CompEffect.sendAnswer CameraSlot.cam2]) :=
  ⟨rfl, rfl,
   candidate_buffering_flush_in_order "m1" CameraSlot.cam2 [10, 20, 30] 5
     (Compositor.CompositorState.mk (fun _ => none) (fun _ => []) (fun _ => none)) rfl rfl⟩

/-- Claim C9: initiateConnection empties the pending-candidate queue before the
new peer connection is created, so a candidate buffered for a previous peer
connection is never applied to a later one: whatever the prior state held,
after initiateConnection the queue is empty and the fresh connection carries no
candidates, and a negotiation that follows applies exactly the candidates
received after it. -/
theorem initiate_connection_clears_pending (matchId : String) (slot : CameraSlot)
    (s : Camera.CameraConn) (cs : List Candidate) (sdp : Sdp) :
    let s1 := (Camera.initiateConnection true true s).1
    let s2 := (cs.map fun c =>
        ({ matchId := matchId, slot := slot, candidate := c } : Camera.CameraIceMsg)).foldl
      (fun st m => Camera.handleIceCandidate matchId slot m st) s1
    s1.pendingIceCandidates = []
    ∧ s1.peerConnection = some { remoteDescription := none, addedCandidates := [] }
    ∧ Camera.handleAnswer matchId slot { matchId := matchId, slot := slot, sdp := sdp } s2
        = { peerConnection := some { remoteDescription := some sdp, addedCandidates := cs }
            pendingIceCandidates := [] } := by
  intro s1 s2
  have hs1 : s1 = { peerConnection := some { remoteDescription := none, addedCandidates := [] }
                    pendingIceCandidates := [] } := by
    show (Camera.initiateConnection true true s).1 = _
    simp [Camera.initiateConnection]
  have hs2 : s2 = { peerConnection := some { remoteDescription := none, addedCandidates := [] }
                    pendingIceCandidates := [] ++ cs } := by
    show (cs.map fun c =>
        ({ matchId := matchId, slot := slot, candidate := c } : Camera.CameraIceMsg)).foldl
      (fun st m => Camera.handleIceCandidate matchId slot m st) s1 = _
    rw [hs1]
    exact camera_ice_foldl_buffers matchId slot cs _ rfl []
  refine ⟨by rw [hs1], by rw [hs1], ?_⟩
  rw [hs2]
  simp [Camera.handleAnswer]

/-- Claim C10: the compositor holds at most one PeerSession per camera slot:
createPeerConnection for a slot first closes the session currently stored for
that slot (when one exists), replaces the table entry with a fresh connection
and leaves the entries, queues and streams of every other slot unchanged; a
whole handleOffer likewise leaves the table entries of all other slots
unchanged. -/
theorem one_session_per_slot (matchId : String) (slot : CameraSlot) (sdp : Sdp)
    (s : Compositor.CompositorState) :
    (Compositor.createPeerConnection slot s).1.peerConnections slot
        = some { remoteDescription := none, addedCandidates := [] }
    ∧ (Compositor.createPeerConnection slot s).2
        = ((s.peerConnections slot).map (Compositor.CompEffect.closePC slot)).toList
    ∧ (∀ sl, sl ≠ slot →
        (Compositor.createPeerConnection slot s).1.peerConnections sl = s.peerConnections sl)
    ∧ (Compositor.createPeerConnection slot s).1.pendingIceCandidates = s.pendingIceCandidates
    ∧ (Compositor.createPeerConnection slot s).1.streams = s.streams
    ∧ (∀ sl, sl ≠ slot →
        (Compositor.handleOffer matchId { matchId := matchId, slot := slot, sdp := sdp }
          s).1.peerConnections sl = s.peerConnections sl) := by
  refine ⟨by simp [Compositor.createPeerConnection], rfl, ?_, rfl, rfl, ?_⟩
  · intro sl hsl
    simp [Compositor.createPeerConnection, hsl]
  · intro sl hsl
    simp [Compositor.handleOffer, Compositor.createPeerConnection, hsl]

/-- Claim C10 witness: the theorem applied at a concrete slot and a state
holding a session for cam1, checked at the other slot cam2. -/
theorem one_session_per_slot_witness :
    (Compositor.createPeerConnection CameraSlot.cam1 exCompositorState).1.peerConnections
        CameraSlot.cam1 = some { remoteDescription := none, addedCandidates := [] }
    ∧ (Compositor.createPeerConnection CameraSlot.cam1 exCompositorState).2
        = ((exCompositorState.peerConnections CameraSlot.cam1).map
            (Compositor.CompEffect.closePC CameraSlot.cam1)).toList
    ∧ (Compositor.createPeerConnection CameraSlot.cam1 exCompositorState).1.peerConnections
        CameraSlot.cam2 = exCompositorState.peerConnections CameraSlot.cam2 := by
  have h := one_session_per_slot "m1" CameraSlot.cam1 3 exCompositorState
  exact ⟨h.1, h.2.1, h.2.2.1 CameraSlot.cam2 (by decide)⟩

/-- Claim C1 (amended): on the source side a duplicate answer is ignored: when
the camera peer connection already has a remote description, handleAnswer is
the identity, no error path runs and no state changes, so the remote
description is applied at most once per connection.  On the compositor side the
program-answer handler has no duplicate guard: it issues setRemoteDescription
whenever a session for the answering viewer exists, also when the remote
description of that session is already set. -/
theorem duplicate_answer_source_guarded (matchId : String) (slot : CameraSlot)
    (data : Camera.CameraAnswerMsg) (s : Camera.CameraConn) (pc : Camera.CameraPC)
    (hpc : s.peerConnection = some pc) (hrd : pc.remoteDescription.isSome = true)
    (pcs : List (String × Broadcast.ProgramPC)) (d : Broadcast.ProgramAnswerMsg)
    (pcP : Broadcast.ProgramPC) (hlook : pcs.lookup d.viewerSocketId = some pcP) :
    Camera.handleAnswer matchId slot data s = s
    ∧ (Broadcast.handleProgramAnswer pcs d).2
        = [Broadcast.ProgEffect.setRemoteDescriptionCall d.viewerSocketId d.sdp] := by
  constructor
  · simp [Camera.handleAnswer, hpc, hrd]
  · simp [Broadcast.handleProgramAnswer, hlook]

/-- Claim C1 witness: the theorem applied at a camera connection whose remote
description is set and at a program-session table holding viewer1 with a set
remote description. -/
theorem duplicate_answer_source_guarded_witness :
    Camera.handleAnswer "m1" CameraSlot.cam1
        { matchId := "m1", slot := CameraSlot.cam1, sdp := 7 } exCameraConn = exCameraConn
    ∧ (Broadcast.handleProgramAnswer exProgramPCs { viewerSocketId := "viewer1", sdp := 7 }).2
        = [Broadcast.ProgEffect.setRemoteDescriptionCall "viewer1" 7] :=
  duplicate_answer_source_guarded "m1" CameraSlot.cam1
    { matchId := "m1", slot := CameraSlot.cam1, sdp := 7 } exCameraConn
    { remoteDescription := some 3, addedCandidates := [] } rfl rfl
    exProgramPCs { viewerSocketId := "viewer1", sdp := 7 } exProgramPC (by decide)

/-- Claim C1 counterexample: the session of viewer1 already has a remote
description, yet the program-answer handler issues setRemoteDescription for it
again: the duplicate answer is re-applied rather than ignored (the rejection of
the call is merely logged), refuting the claim for program sessions. -/
theorem program_answer_reapplied_counterexample :
    (exProgramPCs.lookup "viewer1").map (fun pcP => pcP.remoteDescription)
        = some (some 5)
    ∧ (Broadcast.handleProgramAnswer exProgramPCs { viewerSocketId := "viewer1", sdp := 7 }).2
        = [Broadcast.ProgEffect.setRemoteDescriptionCall "viewer1" 7] := by
  exact ⟨by decide, by decide⟩

/-- Claim C4 (amended): on the connectivity transitions checking, connected,
disconnected, failed, the source status passes through connecting, live, error
(checking leaves the initial connecting status in place), and the compositor
removes the stream entry of the slot already at disconnected as well as at
failed, while checking and connected leave the streams map untouched and other
slots are never affected. -/
theorem connectivity_status_and_stream_removal (slot : CameraSlot)
    (s : Compositor.CompositorState) :
    ([IceConnState.checking, IceConnState.connected, IceConnState.disconnected,
        IceConnState.failed].scanl
          (fun u st => Camera.onIceConnectionStateChange st u)
          (CameraStatus.connecting, false)).map Prod.fst
      = [CameraStatus.connecting, CameraStatus.connecting, CameraStatus.live,
         CameraStatus.error, CameraStatus.error]
    ∧ (Compositor.onIceConnectionStateChange slot IceConnState.checking s).streams = s.streams
    ∧ (Compositor.onIceConnectionStateChange slot IceConnState.connected s).streams = s.streams
    ∧ (Compositor.onIceConnectionStateChange slot IceConnState.disconnected s).streams slot = none
    ∧ (Compositor.onIceConnectionStateChange slot IceConnState.failed s).streams slot = none
    ∧ (∀ sl, sl ≠ slot →
        (Compositor.onIceConnectionStateChange slot IceConnState.disconnected s).streams sl
          = s.streams sl) := by
  refine ⟨rfl, ?_, ?_, ?_, ?_, ?_⟩
  · simp [Compositor.onIceConnectionStateChange]
  · simp [Compositor.onIceConnectionStateChange]
  · simp [Compositor.onIceConnectionStateChange]
  · simp [Compositor.onIceConnectionStateChange]
  · intro sl hsl
    simp [Compositor.onIceConnectionStateChange, hsl]

/-- Claim C4 witness: the theorem applied at slot cam1 and a state carrying a
stream for cam1, with the other-slot clause checked at cam2. -/
theorem connectivity_status_and_stream_removal_witness :
    (Compositor.onIceConnectionStateChange CameraSlot.cam1 IceConnState.disconnected
        exCompositorState).streams CameraSlot.cam1 = none
    ∧ (Compositor.onIceConnectionStateChange CameraSlot.cam1 IceConnState.disconnected
        exCompositorState).streams CameraSlot.cam2 = exCompositorState.streams CameraSlot.cam2 := by
  have h := connectivity_status_and_stream_removal CameraSlot.cam1 exCompositorState
  exact ⟨h.2.2.2.1, h.2.2.2.2.2 CameraSlot.cam2 (by decide)⟩

/-- Claim C4 counterexample: a stream entry is present for cam1 and a
disconnected transition alone already removes it, refuting removal only at
failed. -/
theorem stream_removed_at_disconnected_counterexample :
    exCompositorState.streams CameraSlot.cam1 = some exStream
    ∧ (Compositor.onIceConnectionStateChange CameraSlot.cam1 IceConnState.disconnected
        exCompositorState).streams CameraSlot.cam1 = none := by
  exact ⟨rfl, rfl⟩

/-- Claim C5 (amended): on supersession the compositor records the error and
marks itself disconnected; the re-run this causes of the join effect closes
every source peer connection and clears the streams map, but the program
(viewer) sessions are left untouched, and one further claim attempt is issued
(compositor_leave, then a delayed compositor_join); afterwards the retry
interval no longer calls joinCompositor while the error persists. -/
theorem supersession_behavior (s : Compositor.CompositorInstance) :
    (Compositor.onSuperseded s).1.ui
        = { isConnected := false, error := some "Another compositor took over" }
    ∧ (Compositor.onSuperseded s).1.programPCs = s.programPCs
    ∧ (∀ sl, (Compositor.onSuperseded s).1.conn.peerConnections sl = none)
    ∧ (∀ sl, (Compositor.onSuperseded s).1.conn.streams sl = none)
    ∧ (Compositor.onSuperseded s).2
        = (CAMERA_SLOTS.filterMap fun sl =>
            (s.conn.peerConnections sl).map (Compositor.CompEffect.closePC sl))
          ++ [Compositor.CompEffect.emitCompositorLeave,
              Compositor.CompEffect.emitCompositorJoin]
    ∧ Compositor.retryTickJoins (Compositor.onSuperseded s).1.ui = false := by
  exact ⟨rfl, rfl, fun sl => rfl, fun sl => rfl, rfl, rfl⟩

/-- Claim C5 counterexample: with one program (viewer) session held, the
supersession transition leaves that session in the table with no close issued
for it, and emits a further compositor_join claim attempt without an explicit
restart. -/
theorem supersession_keeps_viewer_sessions_counterexample :
    (Compositor.onSuperseded exInstance).1.programPCs = [("viewer1", exProgramPC)]
    ∧ Compositor.CompEffect.emitCompositorJoin ∈ (Compositor.onSuperseded exInstance).2 := by
  refine ⟨rfl, ?_⟩
  simp [Compositor.onSuperseded, Compositor.joinEffectRerun]

/-- Claim C6 (amended): on every camera:switched notification the viewer bumps
forceReconnect, which re-runs the program-viewer effect: the current program
session, whatever its connection state, is closed unconditionally, and the
program is requested again. -/
theorem camera_switched_forces_viewer_reconnect (s : Viewer.ViewerState) :
    Viewer.onCameraSwitched s
      = ({ forceReconnect := s.forceReconnect + 1, programPc := none },
         ((s.programPc.map Viewer.ViewerEffect.closeProgramPc).toList)
           ++ [Viewer.ViewerEffect.emitProgramViewerJoin]) := rfl

/-- Claim C6 counterexample: a healthy (connected) program session is torn down
by the camera:switched hint alone, refuting that a healthy session is never
torn down because of the hint. -/
theorem camera_switched_teardown_counterexample :
    exViewer.programPc = some { connectionState := IceConnState.connected }
    ∧ (Viewer.onCameraSwitched exViewer).2
        = [Viewer.ViewerEffect.closeProgramPc { connectionState := IceConnState.connected },
           Viewer.ViewerEffect.emitProgramViewerJoin]
    ∧ (Viewer.onCameraSwitched exViewer).1.programPc = none := by
  exact ⟨rfl, rfl, rfl⟩

/-- Claim C7 (amended): setting activeSlot to none with the program video
element mounted clears the rendered program surface, and the compositor-side
activeSlot effect does nothing else: no close, no track replace, no offer and
no answer, for any streams map and any session table.  But the remove-from-air
click also emits a camera:switched notification to the match, and a viewer that
receives it closes its program PeerSession unconditionally and re-requests the
program, so open viewer sessions do not stay connected through this
operation. -/
theorem remove_from_air_behavior
    (streams : CameraSlot → Option MediaStreamModel)
    (pcs : List (String × Broadcast.ProgramPC)) (v : Viewer.ViewerState) :
    Broadcast.onActiveSlotChange true none streams pcs
      = [Broadcast.ProgEffect.setProgramSrc none]
    ∧ Broadcast.ProgEffect.emitCameraSwitched none ∈ Broadcast.removeFromAirClick
    ∧ (Viewer.onCameraSwitched v).1.programPc = none
    ∧ (Viewer.onCameraSwitched v).2
        = (v.programPc.map Viewer.ViewerEffect.closeProgramPc).toList
            ++ [Viewer.ViewerEffect.emitProgramViewerJoin] := by
  exact ⟨rfl, by simp [Broadcast.removeFromAirClick], rfl, rfl⟩

/-- Claim C7 counterexample: the remove-from-air click emits camera:switched
besides the switch itself, and a viewer holding an open connected program
session closes that session on receiving the notification: the operation does
close viewer sessions, refuting that every open viewer session remains open and
stays connected. -/
theorem remove_from_air_closes_viewer_counterexample :
    Broadcast.removeFromAirClick
      = [Broadcast.ProgEffect.emitCameraSwitch none,
         Broadcast.ProgEffect.emitCameraSwitched none]
    ∧ exViewer.programPc = some { connectionState := IceConnState.connected }
    ∧ (Viewer.onCameraSwitched exViewer).1.programPc = none
    ∧ Viewer.ViewerEffect.closeProgramPc { connectionState := IceConnState.connected }
        ∈ (Viewer.onCameraSwitched exViewer).2 := by
  exact ⟨rfl, rfl, rfl, by decide⟩

/-- Claim C8 (amended): switching the camera facing (switchCamera, the
device-facing toggle) stops only video tracks of the local stream, acquires one
new video track and replaces the outgoing track in place when the session
carries a video sender, with no offer and no whole-stream re-capture; switching
the capture kind itself (switchSource, camera to screen or back) instead stops
every track of the local stream, audio included, and starts a whole new
capture. -/
theorem switch_capture_behavior (stream : MediaStreamModel)
    (senders : List (Option Track)) (nt : Track)
    (hsend : senders.any senderHoldsVideo = true) :
    Camera.switchCamera Camera.CaptureSource.camera (some stream) (some senders) nt
      = (stream.getVideoTracks.map Camera.CamEffect.stopTrack)
          ++ [Camera.CamEffect.acquireVideo, Camera.CamEffect.replaceOutgoingTrack nt]
    ∧ (∀ t, Camera.CamEffect.stopTrack t ∈
          Camera.switchCamera Camera.CaptureSource.camera (some stream) (some senders) nt →
          t.kind = TrackKind.video)
    ∧ Camera.CamEffect.sendOffer ∉
        Camera.switchCamera Camera.CaptureSource.camera (some stream) (some senders) nt
    ∧ Camera.CamEffect.acquireStream ∉
        Camera.switchCamera Camera.CaptureSource.camera (some stream) (some senders) nt
    ∧ (∀ newSource, newSource ≠ Camera.CaptureSource.camera →
        Camera.switchSource Camera.CaptureSource.camera newSource (some stream)
          = stream.tracks.map Camera.CamEffect.stopTrack ++ [Camera.CamEffect.acquireStream]) := by
  have htrace : Camera.switchCamera Camera.CaptureSource.camera (some stream) (some senders) nt
      = (stream.getVideoTracks.map Camera.CamEffect.stopTrack)
          ++ [Camera.CamEffect.acquireVideo, Camera.CamEffect.replaceOutgoingTrack nt] := by
    simp [Camera.switchCamera, hsend]
  refine ⟨htrace, ?_, ?_, ?_, ?_⟩
  · intro t ht
    rw [htrace] at ht
    simp only [List.mem_append, List.mem_map, List.mem_cons, List.mem_singleton] at ht
    rcases ht with ⟨a, ha, hae⟩ | h | h
    · cases Camera.CamEffect.stopTrack.inj hae
      exact of_decide_eq_true (List.mem_filter.mp ha).2
    · exact absurd h (by simp)
    · exact absurd h (by simp)
  · rw [htrace]
    simp
  · rw [htrace]
    simp
  · intro newSource h
    simp [Camera.switchSource, h]

/-- Claim C8 witness: the theorem applied at the example audio-plus-video
stream, a sender list holding a video track and a concrete new track, with the
capture-kind clause instantiated at screen. -/
theorem switch_capture_behavior_witness :
    ([some ({ id := 2, kind := TrackKind.video } : Track)].any senderHoldsVideo = true)
    ∧ Camera.switchCamera Camera.CaptureSource.camera (some exStream)
        (some [some { id := 2, kind := TrackKind.video }]) { id := 9, kind := TrackKind.video }
      = (exStream.getVideoTracks.map Camera.CamEffect.stopTrack)
          ++ [Camera.CamEffect.acquireVideo,
              Camera.CamEffect.replaceOutgoingTrack { id := 9, kind := TrackKind.video }]
    ∧ Camera.switchSource Camera.CaptureSource.camera Camera.CaptureSource.screen (some exStream)
        = exStream.tracks.map Camera.CamEffect.stopTrack ++ [Camera.CamEffect.acquireStream] := by
  have h := switch_capture_behavior exStream
    [some { id := 2, kind := TrackKind.video }] { id := 9, kind := TrackKind.video } (by decide)
  exact ⟨by decide, h.1, h.2.2.2.2 Camera.CaptureSource.screen (by decide)⟩

/-- Claim C8 counterexample: switching the capture kind from camera to screen
with a stream holding an audio and a video track stops the audio track too, so
not only the video track of the current MediaOrigin is stopped and audio does
not persist. -/
theorem switch_source_stops_audio_counterexample :
    Camera.switchSource Camera.CaptureSource.camera Camera.CaptureSource.screen (some exStream)
      = [Camera.CamEffect.stopTrack { id := 1, kind := TrackKind.audio },
         Camera.CamEffect.stopTrack { id := 2, kind := TrackKind.video },
         Camera.CamEffect.acquireStream]
    ∧ ({ id := 1, kind := TrackKind.audio } : Track).kind ≠ TrackKind.video := by
  exact ⟨rfl, by decide⟩

end Overtime
